import Mathlib

/-!
Shallow embedding of `src/fetch_image.py` (Ubuntu-Inspired Image Fetcher).

The program is modelled faithfully from the source:
* `get_filename_from_url` (lines 38-66) including the behaviour of the Python
  library functions it calls: `urllib.parse.urlparse(...).path` / `.scheme`,
  `urllib.parse.unquote` (percent-decoding with UTF-8 `errors='replace'`),
  `os.path.basename` (POSIX), `str.lower` / `str.strip` (ASCII range),
  `dict.get` on the literal `COMMON_IMAGE_EXT` mapping, and Python truthiness.
* `download_image` (lines 69-96): the HTTP interaction is parameterised by the
  outcome of `requests.get` (either a raised `RequestException` or a response
  value with final status, reason, header and body chunks); `raise_for_status`
  follows the `requests` rule (raise exactly for statuses 400-599); the
  filesystem effect is returned explicitly as the list of files written.
* `main` (lines 99-117): parameterised by the outcome of `Path.mkdir` in
  `ensure_fetch_dir` (lines 33-35) and by the text read from standard input.
  A normal return from `main` means the process exits with code 0; an
  exception that no handler catches is modelled by `MainResult.crashed`.

Nondeterministic inputs of the code (`int(time.time())`, `uuid.uuid4().hex[:6]`)
are passed as explicit parameters (`timestamp`, `short_id`).

Validation-only steps of `urllib.parse.urlsplit` that can raise `ValueError`
for malformed bracketed hosts are omitted: the model's parser is total.
-/

namespace FetchImage

/-! ### ASCII helpers used by the Python string methods in the source -/

/-- Lower-case a single character as Python `str.lower` does on the ASCII
range (the only range reached by the scheme and content-type strings the
program lower-cases). -/
def pyLowerChar (c : Char) : Char :=
  if 'A' ≤ c ∧ c ≤ 'Z' then Char.ofNat (c.toNat + 32) else c

/-- Python `str.lower` on a character list. -/
def pyLowerList (l : List Char) : List Char := l.map pyLowerChar

/-- Python `str.lower`. -/
def pyLower (s : String) : String := ⟨pyLowerList s.data⟩

/-- Whitespace characters stripped by Python `str.strip()`: exactly the
code points whose `str.isspace()` is true (CPython 3.11 Unicode database). -/
def isPySpaceChar (c : Char) : Bool :=
  (9 ≤ c.toNat ∧ c.toNat ≤ 13) ∨ (28 ≤ c.toNat ∧ c.toNat ≤ 32) ∨
  c.toNat = 0x85 ∨ c.toNat = 0xA0 ∨ c.toNat = 0x1680 ∨
  (0x2000 ≤ c.toNat ∧ c.toNat ≤ 0x200A) ∨
  c.toNat = 0x2028 ∨ c.toNat = 0x2029 ∨ c.toNat = 0x202F ∨
  c.toNat = 0x205F ∨ c.toNat = 0x3000

/-- Decimal digit character. -/
def isDigitChar (c : Char) : Bool := decide ('0' ≤ c) && decide (c ≤ '9')

/-- Python `str.strip()` (line 101 of the source). -/
def pyStrip (s : String) : String :=
  ⟨((s.data.dropWhile isPySpaceChar).reverse.dropWhile isPySpaceChar).reverse⟩

/-- Hexadecimal digit recognised by `urllib.parse.unquote` (both cases). -/
def hexVal (c : Char) : Option Nat :=
  if '0' ≤ c ∧ c ≤ '9' then some (c.toNat - 48)
  else if 'a' ≤ c ∧ c ≤ 'f' then some (c.toNat - 87)
  else if 'A' ≤ c ∧ c ≤ 'F' then some (c.toNat - 55)
  else none

/-! ### UTF-8 decoding with `errors='replace'`

`urllib.parse.unquote` decodes the percent-decoded byte runs as UTF-8 with
`errors='replace'`: every maximal ill-formed subpart becomes U+FFFD. -/

/-- A UTF-8 continuation byte. -/
def utf8Cont (b : Nat) : Bool := 0x80 ≤ b ∧ b < 0xC0

/-- The Unicode replacement character. -/
def replChar : Char := '�'

/-- Worker for `utf8DecodeReplace`, structurally recursive on a fuel
bound. Every step consumes at least one byte, so fuel equal to the list
length (as `utf8DecodeReplace` passes) is never exhausted. -/
def utf8DecodeReplaceAux : Nat → List Nat → List Char
  | 0, _ => []
  | _, [] => []
  | fuel + 1, b :: bs =>
    if b < 0x80 then Char.ofNat b :: utf8DecodeReplaceAux fuel bs
    else if 0xC2 ≤ b ∧ b ≤ 0xDF then
      match bs with
      | [] => [replChar]
      | b2 :: bs2 =>
        if utf8Cont b2 then
          Char.ofNat ((b - 0xC0) * 0x40 + (b2 - 0x80)) :: utf8DecodeReplaceAux fuel bs2
        else replChar :: utf8DecodeReplaceAux fuel (b2 :: bs2)
    else if 0xE0 ≤ b ∧ b ≤ 0xEF then
      match bs with
      | [] => [replChar]
      | b2 :: bs2 =>
        if (utf8Cont b2 ∧ (b = 0xE0 → 0xA0 ≤ b2) ∧ (b = 0xED → b2 < 0xA0)) then
          match bs2 with
          | [] => [replChar]
          | b3 :: bs3 =>
            if utf8Cont b3 then
              Char.ofNat ((b - 0xE0) * 0x1000 + (b2 - 0x80) * 0x40 + (b3 - 0x80))
                :: utf8DecodeReplaceAux fuel bs3
            else replChar :: utf8DecodeReplaceAux fuel (b3 :: bs3)
        else replChar :: utf8DecodeReplaceAux fuel (b2 :: bs2)
    else if 0xF0 ≤ b ∧ b ≤ 0xF4 then
      match bs with
      | [] => [replChar]
      | b2 :: bs2 =>
        if (utf8Cont b2 ∧ (b = 0xF0 → 0x90 ≤ b2) ∧ (b = 0xF4 → b2 < 0x90)) then
          match bs2 with
          | [] => [replChar]
          | b3 :: bs3 =>
            if utf8Cont b3 then
              match bs3 with
              | [] => [replChar]
              | b4 :: bs4 =>
                if utf8Cont b4 then
                  Char.ofNat ((b - 0xF0) * 0x40000 + (b2 - 0x80) * 0x1000 +
                      (b3 - 0x80) * 0x40 + (b4 - 0x80)) :: utf8DecodeReplaceAux fuel bs4
                else replChar :: utf8DecodeReplaceAux fuel (b4 :: bs4)
            else replChar :: utf8DecodeReplaceAux fuel (b3 :: bs3)
        else replChar :: utf8DecodeReplaceAux fuel (b2 :: bs2)
    else replChar :: utf8DecodeReplaceAux fuel bs

/-- Decode a byte list as UTF-8, replacing ill-formed subparts by U+FFFD. -/
def utf8DecodeReplace (l : List Nat) : List Char := utf8DecodeReplaceAux l.length l

/-! ### `urllib.parse.unquote`

CPython splits the string into maximal ASCII runs; inside a run, literal ASCII
characters and the bytes produced by valid `%XX` escapes are concatenated and
decoded together as UTF-8 with `errors='replace'`; invalid escapes keep their
`%` literally; non-ASCII characters pass through unchanged. -/

/-- Worker for `unquote`: `buf` holds the bytes of the current ASCII run in
reverse order. -/
def unquoteLoopAux : Nat → List Char → List Nat → List Char
  | 0, _, buf => utf8DecodeReplace buf.reverse
  | _, [], buf => utf8DecodeReplace buf.reverse
  | fuel + 1, c :: cs, buf =>
    if c = '%' then
      match cs with
      | h1 :: h2 :: cs2 =>
        match hexVal h1, hexVal h2 with
        | some v1, some v2 => unquoteLoopAux fuel cs2 ((v1 * 16 + v2) :: buf)
        | _, _ => unquoteLoopAux fuel cs (37 :: buf)
      | _ => unquoteLoopAux fuel cs (37 :: buf)
    else if c.toNat < 0x80 then unquoteLoopAux fuel cs (c.toNat :: buf)
    else utf8DecodeReplace buf.reverse ++ c :: unquoteLoopAux fuel cs []

/-- Worker for `unquote` (fuel equal to the list length is never
exhausted: every step consumes at least one character). -/
def unquoteLoop (l : List Char) (buf : List Nat) : List Char :=
  unquoteLoopAux l.length l buf

/-- Model of `urllib.parse.unquote` with its default arguments, as called on line 45. -/
def unquote (s : String) : String := ⟨unquoteLoop s.data []⟩

/-! ### `urllib.parse.urlparse`: scheme and path extraction -/

/-- Characters allowed in a URL scheme by `urllib.parse`. -/
def isSchemeChar (c : Char) : Bool :=
  ('a' ≤ c ∧ c ≤ 'z') ∨ ('A' ≤ c ∧ c ≤ 'Z') ∨ ('0' ≤ c ∧ c ≤ '9') ∨
  c = '+' ∨ c = '-' ∨ c = '.'

/-- First character of a scheme: an ASCII letter. -/
def isAsciiAlpha (c : Char) : Bool := ('a' ≤ c ∧ c ≤ 'z') ∨ ('A' ≤ c ∧ c ≤ 'Z')

/-- Everything strictly before the first occurrence of `c`. -/
def takeUntilChar (c : Char) (l : List Char) : List Char := l.takeWhile (· ≠ c)

/-- Everything strictly after the last occurrence of `c` (REST of the list if
`c` does not occur), as `str.rfind`-based slicing computes it. -/
def afterLastChar (c : Char) (l : List Char) : List Char :=
  (l.reverse.takeWhile (· ≠ c)).reverse

/-- The part of the list up to and including the last occurrence of `c`
(empty if `c` does not occur). -/
def upToLastChar (c : Char) (l : List Char) : List Char :=
  (l.reverse.dropWhile (· ≠ c)).reverse

/-- Control characters and space stripped from the front of the URL by
`urlsplit` (WHATWG: C0 controls and space; only the left end is stripped,
trailing spaces are preserved). -/
def isC0OrSpace (c : Char) : Bool := c.toNat ≤ 0x20

/-- Characters removed everywhere in the URL by `urlsplit` (WHATWG: tab,
carriage return, newline). -/
def isUnsafeUrlByte (c : Char) : Bool := c = '\t' ∨ c = '\r' ∨ c = '\n'

/-- The scheme-splitting step of `urlsplit`: returns the (lower-cased) scheme
and the rest of the URL after the colon, or keeps the URL whole when no valid
scheme is present. -/
def splitScheme (l : List Char) : List Char × List Char :=
  let before := takeUntilChar ':' l
  if before.length < l.length then
    if before.length > 0 ∧ isAsciiAlpha (before.headD 'a') ∧ before.all isSchemeChar then
      (pyLowerList before, l.drop (before.length + 1))
    else ([], l)
  else ([], l)

/-- Schemes for which `urlparse` splits `;params` off the last path segment
(`uses_params` in `urllib.parse`). -/
def usesParamsList : List (List Char) :=
  [[], ['f','t','p'], ['h','d','l'], ['p','r','o','s','p','e','r','o'],
   ['h','t','t','p'], ['i','m','a','p'], ['h','t','t','p','s'],
   ['s','h','t','t','p'], ['r','t','s','p'], ['r','t','s','p','u'],
   ['s','i','p'], ['s','i','p','s'], ['m','m','s'], ['s','f','t','p'],
   ['t','e','l']]

/-- Model of `_splitparams` of `urllib.parse`, restricted to the path it returns:
drop `;params` from the last path segment when present. -/
def splitParamsPath (l : List Char) : List Char :=
  if l.elem '/' then
    let suf := afterLastChar '/' l
    if suf.elem ';' then upToLastChar '/' l ++ takeUntilChar ';' suf else l
  else takeUntilChar ';' l

/-- Scheme and path as computed by `urllib.parse.urlparse`: strip unsafe
bytes, split the scheme, skip the `//netloc` part, cut fragment and query,
and split `;params` off the last segment for the schemes that use them. -/
def urlparseSchemePath (url : String) : List Char × List Char :=
  let u0 := url.data.dropWhile isC0OrSpace
  let u1 := u0.filter (fun c => ¬ isUnsafeUrlByte c)
  let sp := splitScheme u1
  let scheme := sp.1
  let u2 := sp.2
  let u3 :=
    if u2.take 2 = ['/', '/'] then
      (u2.drop 2).dropWhile (fun c => ¬ (c = '/' ∨ c = '?' ∨ c = '#'))
    else u2
  let u4 := takeUntilChar '?' (takeUntilChar '#' u3)
  let path :=
    if (usesParamsList.elem scheme) ∧ u4.elem ';' then splitParamsPath u4 else u4
  (scheme, path)

/-- Model of `urllib.parse.urlparse(url).scheme`. -/
def urlparse_scheme (url : String) : String := ⟨(urlparseSchemePath url).1⟩

/-- Model of `urllib.parse.urlparse(url).path`. -/
def urlparse_path (url : String) : String := ⟨(urlparseSchemePath url).2⟩

/-- Model of `os.path.basename` (POSIX): everything after the last `/`. -/
def basename (s : String) : String := ⟨afterLastChar '/' s.data⟩

/-! ### Raise paths of `urlsplit` (reached through `urlparse` on line 106)

CPython's `urlsplit` raises `ValueError` for a netloc containing an
unbalanced bracket (message `Invalid IPv6 URL`) and for a balanced-bracket
host that `_check_bracketed_host` rejects: the host must be a valid IPv6
address (per `ipaddress.ip_address`) or an IPvFuture literal, and an IPv4
address may not appear in brackets. The NFKC-based `_checknetloc`
rejection, possible only for non-ASCII netlocs, is not modelled; the
theorems below that rely on a successful parse therefore restrict to
all-ASCII netlocs, for which `_checknetloc` returns immediately. -/

/-- Python `str.split(sep)` for a one-character separator. -/
def splitChar (c : Char) : List Char → List (List Char)
  | [] => [[]]
  | x :: xs =>
    let r := splitChar c xs
    if x = c then [] :: r
    else
      match r with
      | [] => [[x]]
      | h :: t => (x :: h) :: t

/-- Hexadecimal digit as accepted by `ipaddress._parse_hextet`. -/
def isHexDigitChar (c : Char) : Bool := (hexVal c).isSome

/-- Decimal value of a digit list. -/
def decDigitsVal (s : List Char) : Nat :=
  s.foldl (fun a c => 10 * a + (c.toNat - 48)) 0

/-- Model of `ipaddress.IPv4Address._parse_octet` as a validity test:
non-empty, ASCII digits only, at most 3 characters, no leading zero, value
at most 255. -/
def ipv4OctetOk (s : List Char) : Bool :=
  s ≠ [] ∧ s.all isDigitChar ∧ s.length ≤ 3 ∧
  (s = ['0'] ∨ s.headD '0' ≠ '0') ∧ decDigitsVal s ≤ 255

/-- Model of `ipaddress.IPv4Address(addr)` validity: no `/`, and exactly
four valid octets. -/
def ipv4Ok (s : List Char) : Bool :=
  ¬ s.elem '/' ∧ s ≠ [] ∧
  (let octets := splitChar '.' s
   octets.length = 4 ∧ octets.all ipv4OctetOk)

/-- Model of `ipaddress._parse_hextet` as a validity test: hex digits only
(`int('', 16)` also raises, so empty is invalid), at most 4 characters. -/
def hextetOk (s : List Char) : Bool :=
  s.all isHexDigitChar ∧ s.length ≤ 4 ∧ s ≠ []

/-- Indexes of empty parts strictly between the endpoints, as the `::`
scan of `IPv6Address._ip_int_from_string` visits them. -/
def interiorEmptyIndexes (parts : List (List Char)) : List Nat :=
  (List.range parts.length).filter
    (fun i => decide (1 ≤ i) && decide (i + 1 < parts.length) &&
      decide (parts.getD i ['x'] = []))

/-- Structural validity of the `:`-split parts of an IPv6 address (after
any embedded-IPv4 conversion), mirroring `_ip_int_from_string`: at most 9
parts, at most one interior `::`, endpoint colons only as part of `::`, at
least one part skipped by `::`, and every parsed part a valid hextet. -/
def ipv6PartsOk (parts : List (List Char)) : Bool :=
  if parts.length > 9 then false
  else
    match interiorEmptyIndexes parts with
    | [] => parts.length = 8 ∧ parts.all hextetOk
    | [i] =>
      let n := parts.length
      let headEmpty := parts.headD ['x'] = []
      let lastEmpty := parts.getLastD ['x'] = []
      let hi := if headEmpty then i - 1 else i
      let lo0 := n - i - 1
      let lo := if lastEmpty then lo0 - 1 else lo0
      (¬ headEmpty ∨ i = 1) ∧ (¬ lastEmpty ∨ lo0 = 1) ∧ hi + lo ≤ 7 ∧
      (parts.take hi).all hextetOk ∧ (parts.drop (n - lo)).all hextetOk
    | _ => false

/-- Model of `IPv6Address._ip_int_from_string` validity (scope id already
removed): non-empty, at least 3 `:`-parts, optional embedded IPv4 suffix
(converted to two always-valid hextets; `['0']` stands for them, which the
structural check cannot distinguish from the real `'%x'` rendering), then
the structural check. -/
def ipv6AddrOk (addr : List Char) : Bool :=
  if addr = [] then false
  else
    let parts := splitChar ':' addr
    if parts.length < 3 then false
    else
      let lastP := parts.getLastD []
      if lastP.elem '.' then
        ipv4Ok lastP ∧ ipv6PartsOk (parts.dropLast ++ [['0'], ['0']])
      else ipv6PartsOk parts

/-- Model of `ipaddress.IPv6Address(host)` validity: no `/`, scope id
split at the first `%` (non-empty, no further `%`), then the address
check. -/
def ipv6Ok (s : List Char) : Bool :=
  if s.elem '/' then false
  else
    let addr := takeUntilChar '%' s
    let hasSep := addr.length < s.length
    let scope := s.drop (addr.length + 1)
    if hasSep ∧ (scope = [] ∨ scope.elem '%') then false
    else ipv6AddrOk addr

/-- Model of the IPvFuture regex of `_check_bracketed_host`:
`v`, one or more hex digits, `.`, one or more characters other than a
newline. -/
def ipvFutureOk (host : List Char) : Bool :=
  match host with
  | 'v' :: t =>
    let hx := t.takeWhile isHexDigitChar
    let rest := t.drop hx.length
    decide (hx ≠ []) &&
      (match rest with
       | '.' :: r => decide (r ≠ []) && r.all (fun x => decide (x ≠ '\n'))
       | _ => false)
  | _ => false

/-- The bracketed host `urlsplit` extracts:
`netloc.partition('[')[2].partition(']')[0]`. -/
def bracketedHostOf (netloc : List Char) : List Char :=
  takeUntilChar ']' (netloc.drop ((takeUntilChar '[' netloc).length + 1))

/-- Model of `_check_bracketed_host`: the `ValueError` text it raises, or
`none` when the host is accepted. -/
def checkBracketedHost (host : List Char) : Option String :=
  if host.headD ' ' = 'v' then
    if ipvFutureOk host then none else some "IPvFuture address is invalid"
  else if ipv4Ok host then some "An IPv4 address cannot be in brackets"
  else if ipv6Ok host then none
  else some ("'" ++ String.mk host ++ "' does not appear to be an IPv4 or IPv6 address")

/-- Netloc component as `urlsplit` extracts it (same preprocessing as
`urlparseSchemePath`; empty when the post-scheme URL does not start with
`//`). -/
def urlparseNetloc (url : String) : List Char :=
  let u0 := url.data.dropWhile isC0OrSpace
  let u1 := u0.filter (fun c => ¬ isUnsafeUrlByte c)
  let u2 := (splitScheme u1).2
  if u2.take 2 = ['/', '/'] then
    (u2.drop 2).takeWhile (fun c => ¬ (c = '/' ∨ c = '?' ∨ c = '#'))
  else []

/-- Model of the `ValueError` raise paths of `urlsplit` on a given URL:
bracket mismatch in the netloc, then the bracketed-host check (see the
section comment for the unmodelled NFKC netloc check). -/
def urlparseError? (url : String) : Option String :=
  let netloc := urlparseNetloc url
  if (netloc.elem '[' ∧ ¬ netloc.elem ']') ∨ (netloc.elem ']' ∧ ¬ netloc.elem '[') then
    some "Invalid IPv6 URL"
  else if netloc.elem '[' ∧ netloc.elem ']' then
    checkBracketedHost (bracketedHostOf netloc)
  else none

/-! ### Content types and the fixed extension mapping -/

/-- Model of `s.split(";")[0]`: the part of the string before the first `;`. -/
def takeUntilSemi (s : String) : String := ⟨takeUntilChar ';' s.data⟩

/-- Model of `lhs.startswith(pre)` on character lists. -/
def leadsWith (pre l : List Char) : Bool := l.take pre.length = pre

/-- The `COMMON_IMAGE_EXT` dictionary (lines 21-30), accessed via
`dict.get`. -/
def lookupCommonExt (ct : String) : Option String :=
  if ct = "image/jpeg" then some ".jpg"
  else if ct = "image/pjpeg" then some ".jpg"
  else if ct = "image/png" then some ".png"
  else if ct = "image/gif" then some ".gif"
  else if ct = "image/webp" then some ".webp"
  else if ct = "image/bmp" then some ".bmp"
  else if ct = "image/svg+xml" then some ".svg"
  else if ct = "image/x-icon" then some ".ico"
  else none

/-- Python truthiness of an optional string (`None` and `""` are falsy). -/
def pyFalsyOpt (o : Option String) : Bool :=
  match o with
  | none => true
  | some s => s = ""

/-- Python `x or default` idiom on an optional string value, mirroring
`if not ext: ext = ".jpg"`. -/
def pyOrDefault (o : Option String) (d : String) : String :=
  match o with
  | none => d
  | some s => if s = "" then d else s

/-! ### The modelled HTTP response and `get_filename_from_url` -/

/-- The observable parts of a `requests.Response` that the program reads:
the final HTTP status code and reason phrase, the final URL (used in the
message `raise_for_status` builds), the `Content-Type` header if present
(`requests` header lookup is case-insensitive, abstracted here as an
optional value), and the body as the chunk sequence `iter_content` yields. -/
structure HttpResponse where
  status : Nat
  reason : String
  finalUrl : String
  contentType? : Option String
  chunks : List (List Nat)
deriving DecidableEq

/-- Model of `response.headers.get("Content-Type", "").split(";")[0].lower()`
(lines 53 and 79 of the source). -/
def contentTypeOf (r : HttpResponse) : String :=
  pyLower (takeUntilSemi (r.contentType?.getD ""))

/-- Lines 44-46 of the source: the candidate filename taken from the URL,
the final segment of the percent-decoded path
(`os.path.basename(unquote(urlparse(url).path or ""))`). -/
def pathName (url : String) : String := basename (unquote (urlparse_path url))

/-- Model of `get_filename_from_url` (lines 38-66). `timestamp` stands for
`int(time.time())` and `short_id` for `uuid.uuid4().hex[:6]`. -/
def get_filename_from_url (url : String) (response : HttpResponse)
    (timestamp : Nat) (short_id : String) : String :=
  let name := pathName url
  if name.data ≠ [] ∧ name.data.elem '.' then name
  else
    let content_type := contentTypeOf response
    let ext0 := lookupCommonExt content_type
    let ext1 :=
      if pyFalsyOpt ext0 ∧ leadsWith "image/".data content_type.data then
        some ("." ++ ⟨afterLastChar '/' content_type.data⟩)
      else ext0
    let ext := pyOrDefault ext1 ".jpg"
    "image_" ++ Nat.repr timestamp ++ "_" ++ short_id ++ ext

/-! ### The Downloader (`download_image`, lines 69-96) -/

/-- Outcome of the `requests.get(url, stream=True, timeout=15)` call on
line 73: either a raised `requests.exceptions.RequestException` (DNS,
connection or timeout failure) with its text, or the final response after
the client's default redirect handling. -/
inductive GetResult where
  | exn (msg : String)
  | ok (resp : HttpResponse)
deriving DecidableEq

/-- The spec's `FetchResult.status`, with `detail` carried by each failure
constructor. In the code each constructor corresponds to one return site of
`download_image`: `success p` is `return filepath`, the others are
`return None` preceded by the diagnostic `print` recorded in `printedOf`. -/
inductive FetchStatus where
  | success (path : String)
  | networkError (detail : String)
  | notAnImage (contentTypeShown : String)
  | writeError (detail : String)
deriving DecidableEq

/-- The diagnostic lines `download_image` prints at each failure return
site (lines 76, 81, 95). -/
def printedOf : FetchStatus → List String
  | .success _ => []
  | .networkError e => ["[Error] Network or request error: " ++ e]
  | .notAnImage ct =>
      ["[Error] The URL does not appear to be an image (Content-Type: " ++ ct ++ ")."]
  | .writeError e => ["[Error] Failed to save image: " ++ e]

/-- Model of `resp.raise_for_status()` from `requests`: raises an `HTTPError` whose
text is the message below exactly for status codes 400-599; all other
statuses (including non-2xx ones such as 304) pass. -/
def raise_for_status (r : HttpResponse) : Option String :=
  if 400 ≤ r.status ∧ r.status < 500 then
    some (Nat.repr r.status ++ " Client Error: " ++ r.reason ++ " for url: " ++ r.finalUrl)
  else if 500 ≤ r.status ∧ r.status < 600 then
    some (Nat.repr r.status ++ " Server Error: " ++ r.reason ++ " for url: " ++ r.finalUrl)
  else none

/-- The write loop of lines 90-92: `for chunk in resp.iter_content(8192):
if chunk: f.write(chunk)` — the bytes the destination file holds
afterwards. -/
def writeChunks (chunks : List (List Nat)) : List Nat :=
  chunks.foldl (fun acc c => if c ≠ [] then acc ++ c else acc) []

/-- Model of `download_image` (lines 69-96). `net` is the outcome of the
`requests.get` call. `openError?` is the text of the `OSError` raised by
`open(filepath, "wb")` when the open fails (`none` when it succeeds; a
failed open creates no file). `writeError?` models an `OSError` raised
during the chunk loop after a successful open: `some (k, e)` means the
first `k` chunks were processed and then the error `e` was raised — the
file was already created by the open, so it remains on disk holding the
bytes of the written prefix (chunk granularity; both failures reach the
same `except OSError` handler on lines 94-96). The second component of the
result is the list of files left on disk by the call, as (path, bytes)
pairs. -/
def download_image (net : GetResult) (url : String) (timestamp : Nat)
    (short_id : String) (openError? : Option String)
    (writeError? : Option (Nat × String)) :
    FetchStatus × List (String × List Nat) :=
  match net with
  | .exn e => (.networkError e, [])
  | .ok resp =>
    match raise_for_status resp with
    | some e => (.networkError e, [])
    | none =>
      let content_type := contentTypeOf resp
      if ¬ leadsWith "image".data content_type.data then (.notAnImage content_type, [])
      else
        let filename := get_filename_from_url url resp timestamp short_id
        let filepath := "Fetched_Images/" ++ filename
        match openError? with
        | some e => (.writeError e, [])
        | none =>
          match writeError? with
          | some (k, e) => (.writeError e, [(filepath, writeChunks (resp.chunks.take k))])
          | none => (.success filepath, [(filepath, writeChunks resp.chunks)])

/-! ### The CLI entry point (`main`, lines 99-117) -/

/-- Outcome of one run of `main`: either a normal return (the process then
exits with code 0), with the status lines printed after the prompt and the
downloader invocation with its filesystem writes when one happened, or an
exception no handler catches (the interpreter prints a traceback and exits
nonzero). -/
inductive MainResult where
  | normal (printed : List String)
      (download : Option (FetchStatus × List (String × List Nat)))
  | crashed (exnText : String)
deriving DecidableEq

/-- Model of `main` (lines 99-117) together with `ensure_fetch_dir` (lines 33-35).
`mkdirError?` is the text of the `OSError` raised by
`FETCH_DIR.mkdir(parents=True, exist_ok=True)` when directory creation
fails (`none` when it succeeds); `input` is the text read from standard
input on line 101. No `try` block surrounds the `ensure_fetch_dir()` call
on line 100 or the `urlparse(url)` call on line 106, so an `OSError` from
the former and a `ValueError` from the latter (see `urlparseError?`) both
escape `main` uncaught. -/
def main (mkdirError? : Option String) (input : String) (net : GetResult)
    (timestamp : Nat) (short_id : String) (openError? : Option String)
    (writeError? : Option (Nat × String)) : MainResult :=
  match mkdirError? with
  | some e => .crashed e
  | none =>
    let url := pyStrip input
    if url = "" then .normal ["No URL entered. Exiting."] none
    else
      match urlparseError? url with
      | some e => .crashed e
      | none =>
        if ¬ (urlparse_scheme url = "http" ∨ urlparse_scheme url = "https") then
          .normal ["Please enter a valid HTTP or HTTPS URL."] none
        else
          let d := download_image net url timestamp short_id openError? writeError?
          let tailMsgs :=
            match d.1 with
            | .success p =>
                ["✅ Image saved to: " ++ p,
                 "You can share images from the Fetched_Images folder later."]
            | s => printedOf s ++ ["❌ Image download failed. See error message above."]
          .normal (["Downloading... this may take a few seconds."] ++ tailMsgs) (some d)

/-! ### Derived notions used by the claims -/

/-- Lower-case hexadecimal digit character (the alphabet of
`uuid.uuid4().hex`). -/
def isLowerHexChar (c : Char) : Bool :=
  isDigitChar c || (decide ('a' ≤ c) && decide (c ≤ 'f'))

/-- Drop an expected leading run from a list, or fail. -/
def dropLeading : List Char → List Char → Option (List Char)
  | [], l => some l
  | _ :: _, [] => none
  | p :: ps, c :: cs => if p = c then dropLeading ps cs else none

/-- The generated-name pattern of the specification:
`image_<digits>_<6 lower-case hex chars><ext>` with a non-empty digit
block. -/
def matchesGeneratedName (ext : String) (s : String) : Bool :=
  match dropLeading "image_".data s.data with
  | none => false
  | some r =>
    let ds := r.takeWhile isDigitChar
    let rest := r.drop ds.length
    decide (ds ≠ []) &&
      match rest with
      | '_' :: r2 =>
        decide ((r2.take 6).length = 6) && (r2.take 6).all isLowerHexChar &&
          decide (r2.drop 6 = ext.data)
      | _ => false

/-- Modelled from the spec's wording of the extension fallback (claim C2):
the fixed mapping's value when the normalized content type is a key;
otherwise `.` followed by the subtype (its final `/`-separated component,
as in the spec's example `image/tiff` gives `.tiff`) when the content type
starts with `image/`; otherwise `.jpg`. To be compared with the extension
the source computes. -/
def claimedExtension (header? : Option String) : String :=
  let ct := pyLower (takeUntilSemi (header?.getD ""))
  match lookupCommonExt ct with
  | some e => e
  | none =>
    if leadsWith "image/".data ct.data then "." ++ ⟨afterLastChar '/' ct.data⟩
    else ".jpg"

/-! ### Decimal representation: `Nat.repr` as a digit list -/

/-- The decimal digit characters of `n`, most significant first. -/
def natDigits (n : Nat) : List Char :=
  if n < 10 then [Nat.digitChar n]
  else natDigits (n / 10) ++ [Nat.digitChar (n % 10)]
termination_by n
decreasing_by exact Nat.div_lt_self (by omega) (by omega)

theorem toDigitsCore_eq_natDigits (fuel n : Nat) (ds : List Char) (h : n < fuel) :
    Nat.toDigitsCore 10 fuel n ds = natDigits n ++ ds := by
  induction fuel generalizing n ds with
  | zero => omega
  | succ f ih =>
    show (if n / 10 = 0 then Nat.digitChar (n % 10) :: ds
          else Nat.toDigitsCore 10 f (n / 10) (Nat.digitChar (n % 10) :: ds)) = _
    by_cases h0 : n / 10 = 0
    · have hn : n < 10 := by omega
      rw [if_pos h0, natDigits, if_pos hn, Nat.mod_eq_of_lt hn]
      rfl
    · have hn : ¬ n < 10 := by omega
      have hlt : n / 10 < f := by omega
      have hN : natDigits n = natDigits (n / 10) ++ [Nat.digitChar (n % 10)] := by
        rw [natDigits, if_neg hn]
      rw [if_neg h0, ih _ _ hlt, hN, List.append_assoc]
      rfl

theorem repr_data_eq_natDigits (n : Nat) : (Nat.repr n).data = natDigits n := by
  show (Nat.toDigits 10 n).asString.data = _
  rw [Nat.toDigits, toDigitsCore_eq_natDigits _ _ _ (Nat.lt_succ_self n)]
  simp [List.asString]

theorem digitChar_is_digit {m : Nat} (h : m < 10) :
    isDigitChar (Nat.digitChar m) = true := by
  interval_cases m <;> decide

theorem natDigits_all_digit (n : Nat) : (natDigits n).all isDigitChar = true := by
  induction n using Nat.strong_induction_on with
  | _ n ih =>
    rw [natDigits]
    by_cases h : n < 10
    · simp only [if_pos h, List.all_cons, List.all_nil, Bool.and_true]
      exact digitChar_is_digit h
    · rw [if_neg h, List.all_append]
      have h1 := ih (n / 10) (Nat.div_lt_self (by omega) (by omega))
      have h2 := digitChar_is_digit (Nat.mod_lt n (by omega) : n % 10 < 10)
      simp [h1, h2]

theorem natDigits_ne_nil (n : Nat) : natDigits n ≠ [] := by
  rw [natDigits]; split <;> simp

/-- Read a digit list back as a number (accumulator style). -/
def decValFrom (a : Nat) : List Char → Nat
  | [] => a
  | c :: cs => decValFrom (10 * a + (c.toNat - 48)) cs

theorem decValFrom_nil (a : Nat) : decValFrom a [] = a := rfl

theorem decValFrom_cons (a : Nat) (c : Char) (cs : List Char) :
    decValFrom a (c :: cs) = decValFrom (10 * a + (c.toNat - 48)) cs := rfl

theorem decValFrom_append (a : Nat) (l m : List Char) :
    decValFrom a (l ++ m) = decValFrom (decValFrom a l) m := by
  induction l generalizing a with
  | nil => rfl
  | cons c cs ih => rw [List.cons_append, decValFrom_cons, decValFrom_cons, ih]

theorem digitChar_toNat {m : Nat} (h : m < 10) :
    (Nat.digitChar m).toNat - 48 = m := by
  interval_cases m <;> decide

theorem decValFrom_natDigits (n : Nat) :
    ∀ a, decValFrom a (natDigits n) = a * 10 ^ (natDigits n).length + n := by
  induction n using Nat.strong_induction_on with
  | _ n ih =>
    intro a
    rw [natDigits]
    by_cases h : n < 10
    · rw [if_pos h, decValFrom_cons, digitChar_toNat h, decValFrom_nil]
      simp only [List.length_singleton, pow_one]
      ring
    · rw [if_neg h]
      rw [decValFrom_append, ih (n / 10) (Nat.div_lt_self (by omega) (by omega)) a]
      rw [decValFrom_cons, digitChar_toNat (Nat.mod_lt n (by omega) : n % 10 < 10),
        decValFrom_nil]
      simp only [List.length_append, List.length_singleton]
      rw [pow_succ, ← mul_assoc]
      generalize a * 10 ^ (natDigits (n / 10)).length = K
      omega

theorem natDigits_inj {m n : Nat} (h : natDigits m = natDigits n) : m = n := by
  have hm := decValFrom_natDigits m 0
  have hn := decValFrom_natDigits n 0
  rw [h] at hm
  rw [hm] at hn
  omega

theorem nat_repr_inj {m n : Nat} (h : Nat.repr m = Nat.repr n) : m = n := by
  apply natDigits_inj
  rw [← repr_data_eq_natDigits, ← repr_data_eq_natDigits, h]

/-! ### Small list facts -/

theorem dropLeading_append (p l : List Char) : dropLeading p (p ++ l) = some l := by
  induction p with
  | nil => rfl
  | cons c cs ih => simp [dropLeading, ih]

theorem writeChunks_foldl (a : List Nat) (cs : List (List Nat)) :
    cs.foldl (fun acc c => if c ≠ [] then acc ++ c else acc) a = a ++ cs.flatten := by
  induction cs generalizing a with
  | nil => simp
  | cons c cs ih =>
    rw [List.foldl_cons]
    by_cases h : c = []
    · subst h
      rw [if_neg (by simp), ih, List.flatten_cons, List.nil_append]
    · rw [if_pos h, ih, List.flatten_cons, List.append_assoc]

theorem writeChunks_eq_flatten (cs : List (List Nat)) : writeChunks cs = cs.flatten := by
  simpa [writeChunks] using writeChunks_foldl [] cs

theorem lookupCommonExt_ne_empty {ct e : String} (h : lookupCommonExt ct = some e) :
    e ≠ "" := by
  unfold lookupCommonExt at h
  repeat' split at h
  all_goals simp_all
  all_goals (intro hc; subst hc; simp_all)

theorem dot_append_ne_empty (s : String) : ("." ++ s) ≠ "" := by
  intro h
  have hd : ("." ++ s).data = ("" : String).data := by rw [h]
  simp [String.data_append] at hd

/-- The generated name the source builds when the URL path gives no usable
filename, with the extension written through the spec's fallback rule. -/
theorem get_filename_gen (url : String) (response : HttpResponse)
    (timestamp : Nat) (short_id : String)
    (hno : ¬ ((pathName url).data ≠ [] ∧ (pathName url).data.elem '.' = true)) :
    get_filename_from_url url response timestamp short_id =
      "image_" ++ Nat.repr timestamp ++ "_" ++ short_id ++
        claimedExtension response.contentType? := by
  unfold get_filename_from_url
  rw [if_neg hno]
  unfold claimedExtension contentTypeOf
  cases hlk : lookupCommonExt (pyLower (takeUntilSemi (response.contentType?.getD ""))) with
  | some e =>
    have hne := lookupCommonExt_ne_empty hlk
    simp [hlk, pyFalsyOpt, pyOrDefault, hne]
  | none =>
    by_cases hst :
        leadsWith "image/".data (pyLower (takeUntilSemi (response.contentType?.getD ""))).data
    · have hne := dot_append_ne_empty ⟨afterLastChar '/'
        (pyLower (takeUntilSemi (response.contentType?.getD ""))).data⟩
      simp [hlk, pyFalsyOpt, hst, pyOrDefault, hne]
    · simp [hlk, pyFalsyOpt, hst, pyOrDefault]

/-- Any string of the shape `image_<decimal digits>_<6 lower-hex chars><ext>`
matches the generated-name pattern. -/
theorem matchesGeneratedName_gen (ts : Nat) (sid ext : String)
    (hlen : sid.data.length = 6) (hhex : sid.data.all isLowerHexChar = true) :
    matchesGeneratedName ext ("image_" ++ Nat.repr ts ++ "_" ++ sid ++ ext) = true := by
  have hdata : ("image_" ++ Nat.repr ts ++ "_" ++ sid ++ ext).data
      = "image_".data ++ (natDigits ts ++ '_' :: (sid.data ++ ext.data)) := by
    simp [String.data_append, repr_data_eq_natDigits]
  unfold matchesGeneratedName
  rw [hdata, dropLeading_append]
  have hall : ∀ a ∈ natDigits ts, isDigitChar a = true := by
    have := natDigits_all_digit ts
    simpa [List.all_eq_true] using this
  have htw : (natDigits ts ++ '_' :: (sid.data ++ ext.data)).takeWhile isDigitChar
      = natDigits ts := by
    rw [List.takeWhile_append_of_pos hall]
    simp [List.takeWhile, isDigitChar]
  have hdr : (natDigits ts ++ '_' :: (sid.data ++ ext.data)).drop (natDigits ts).length
      = '_' :: (sid.data ++ ext.data) := List.drop_left _ _
  have h6 : (sid.data ++ ext.data).take 6 = sid.data := List.take_left' hlen
  have h6d : (sid.data ++ ext.data).drop 6 = ext.data := List.drop_left' hlen
  simp [htw, hdr, h6, h6d, hlen, hhex, natDigits_ne_nil]

theorem raise_for_status_2xx {resp : HttpResponse}
    (h2a : 200 ≤ resp.status) (h2b : resp.status < 300) :
    raise_for_status resp = none := by
  unfold raise_for_status
  rw [if_neg (by omega), if_neg (by omega)]

/-! ## Claims -/

/-- C1: for every URL whose percent-decoded path has a non-empty final
segment containing a '.', the Filename Resolver returns exactly that
segment, unmodified, regardless of the declared content type. -/
theorem C1_url_segment_wins (url : String) (response : HttpResponse)
    (timestamp : Nat) (short_id : String)
    (hne : (pathName url).data ≠ [])
    (hdot : (pathName url).data.elem '.' = true) :
    get_filename_from_url url response timestamp short_id = pathName url := by
  simp only [get_filename_from_url]
  rw [if_pos ⟨hne, hdot⟩]

/-- Witness for C1 at a concrete URL whose decoded path ends in `pic.png`,
with a contradicting declared content type. -/
theorem C1_url_segment_wins_witness :
    (pathName "http://example.com/photos/pic.png").data ≠ [] ∧
    (pathName "http://example.com/photos/pic.png").data.elem '.' = true ∧
    get_filename_from_url "http://example.com/photos/pic.png"
        ⟨200, "OK", "http://example.com/photos/pic.png", some "text/html", []⟩
        1700000000 "a1b2c3"
      = pathName "http://example.com/photos/pic.png" :=
  ⟨by decide, by decide, C1_url_segment_wins _ _ _ _ (by decide) (by decide)⟩

/-- C2: when the URL path yields no usable filename, the appended extension
follows the ordered fallback: mapping value for a known (lower-cased,
parameter-stripped) content type, else '.' plus the subtype when the type
starts with `image/`, else `.jpg` — captured by `claimedExtension`. -/
theorem C2_extension_fallback (url : String) (response : HttpResponse)
    (timestamp : Nat) (short_id : String)
    (hno : ¬ ((pathName url).data ≠ [] ∧ (pathName url).data.elem '.' = true)) :
    get_filename_from_url url response timestamp short_id =
      "image_" ++ Nat.repr timestamp ++ "_" ++ short_id ++
        claimedExtension response.contentType? :=
  get_filename_gen url response timestamp short_id hno

/-- Witness for C2 at a content type absent from the mapping
(`image/tiff`, whose fallback extension is `.tiff`). -/
theorem C2_extension_fallback_witness :
    ¬ ((pathName "http://example.com/download").data ≠ [] ∧
        (pathName "http://example.com/download").data.elem '.' = true) ∧
    claimedExtension (some "image/tiff") = ".tiff" ∧
    get_filename_from_url "http://example.com/download"
        ⟨200, "OK", "http://example.com/download", some "image/tiff", []⟩
        1700000000 "0a1b2c"
      = "image_" ++ Nat.repr 1700000000 ++ "_" ++ "0a1b2c" ++
          claimedExtension (some "image/tiff") :=
  ⟨by decide, by decide, C2_extension_fallback _ _ _ _ (by decide)⟩

/-- C3: for a URL with no path extension and declared content type
`image/png`, the resolver returns a name matching
`image_<digits>_<6 lower-case hex chars>.png`. -/
theorem C3_generated_png_name (url : String) (response : HttpResponse)
    (timestamp : Nat) (short_id : String)
    (hno : ¬ ((pathName url).data ≠ [] ∧ (pathName url).data.elem '.' = true))
    (hct : response.contentType? = some "image/png")
    (hlen : short_id.data.length = 6)
    (hhex : short_id.data.all isLowerHexChar = true) :
    matchesGeneratedName ".png"
      (get_filename_from_url url response timestamp short_id) = true := by
  rw [get_filename_gen url response timestamp short_id hno, hct]
  have hext : claimedExtension (some "image/png") = ".png" := by decide
  rw [hext]
  exact matchesGeneratedName_gen timestamp short_id ".png" hlen hhex

/-- Witness for C3 at a URL with bare `/` path. -/
theorem C3_generated_png_name_witness :
    ¬ ((pathName "http://example.com/").data ≠ [] ∧
        (pathName "http://example.com/").data.elem '.' = true) ∧
    matchesGeneratedName ".png"
      (get_filename_from_url "http://example.com/"
        ⟨200, "OK", "http://example.com/", some "image/png", []⟩
        1700000000 "a1b2c3") = true :=
  ⟨by decide,
    C3_generated_png_name _ _ _ _ (by decide) (by decide) (by decide) (by decide)⟩

/-- C4 counterexample: a response with the non-2xx status 304 and an image
content type is not turned into NetworkError — `raise_for_status` only
raises for 400-599, so the body is saved and success returned, a file
being written. -/
theorem C4_counterexample :
    ¬ (200 ≤ 304 ∧ 304 < 300) ∧
    download_image
        (GetResult.ok ⟨304, "Not Modified", "http://example.com/x.png",
          some "image/png", [[137, 80]]⟩)
        "http://example.com/x.png" 0 "aaaaaa" none none
      = (FetchStatus.success "Fetched_Images/x.png",
         [("Fetched_Images/x.png", [137, 80])]) := by
  exact ⟨by decide, by decide⟩

/-- C4 amended: every network-level failure, and every response whose final
status lies in 400-599, yields NetworkError whose detail is the underlying
error text, and no file is written; non-2xx statuses outside 400-599 pass
the status check instead. -/
theorem C4_amended (url : String) (timestamp : Nat) (short_id : String)
    (openError? : Option String) (writeError? : Option (Nat × String)) :
    (∀ e, download_image (GetResult.exn e) url timestamp short_id openError? writeError?
      = (FetchStatus.networkError e, [])) ∧
    (∀ resp : HttpResponse, 400 ≤ resp.status → resp.status < 600 →
      ∃ d, raise_for_status resp = some d ∧
        download_image (GetResult.ok resp) url timestamp short_id openError? writeError?
          = (FetchStatus.networkError d, [])) := by
  refine ⟨fun e => rfl, fun resp h4 h6 => ?_⟩
  by_cases hc : resp.status < 500
  · have hr : raise_for_status resp
        = some (Nat.repr resp.status ++ " Client Error: " ++ resp.reason ++
            " for url: " ++ resp.finalUrl) := by
      unfold raise_for_status; rw [if_pos ⟨h4, hc⟩]
    exact ⟨_, hr, by simp [download_image, hr]⟩
  · have hr : raise_for_status resp
        = some (Nat.repr resp.status ++ " Server Error: " ++ resp.reason ++
            " for url: " ++ resp.finalUrl) := by
      unfold raise_for_status
      rw [if_neg (by omega), if_pos ⟨by omega, h6⟩]
    exact ⟨_, hr, by simp [download_image, hr]⟩

/-- Witness for C4 amended: a raised request exception and a 404 response. -/
theorem C4_amended_witness :
    download_image (GetResult.exn "connection refused")
        "http://example.com/a.png" 0 "aaaaaa" none none
      = (FetchStatus.networkError "connection refused", []) ∧
    (400 ≤ 404 ∧ 404 < 600) ∧
    (∃ d, raise_for_status
          ⟨404, "Not Found", "http://example.com/a.png", some "text/html", []⟩
        = some d ∧
      download_image
          (GetResult.ok ⟨404, "Not Found", "http://example.com/a.png",
            some "text/html", []⟩)
          "http://example.com/a.png" 0 "aaaaaa" none none
        = (FetchStatus.networkError d, [])) :=
  ⟨(C4_amended "http://example.com/a.png" 0 "aaaaaa" none none).1 "connection refused",
   ⟨by decide, by decide⟩,
   (C4_amended "http://example.com/a.png" 0 "aaaaaa" none none).2 _ (by decide) (by decide)⟩

/-- C5: every 2xx response whose normalized Content-Type does not start
with `image` yields NotAnImage and writes no file. -/
theorem C5_not_an_image (url : String) (timestamp : Nat) (short_id : String)
    (openError? : Option String) (writeError? : Option (Nat × String))
    (resp : HttpResponse)
    (h2a : 200 ≤ resp.status) (h2b : resp.status < 300)
    (hni : leadsWith "image".data (contentTypeOf resp).data = false) :
    download_image (GetResult.ok resp) url timestamp short_id openError? writeError?
      = (FetchStatus.notAnImage (contentTypeOf resp), []) := by
  simp [download_image, raise_for_status_2xx h2a h2b, hni]

/-- Witness for C5 at a `text/html` response. -/
theorem C5_not_an_image_witness :
    (200 ≤ 200 ∧ 200 < 300) ∧
    leadsWith "image".data
      (contentTypeOf ⟨200, "OK", "http://example.com/a",
        some "text/html; charset=utf-8", [[60]]⟩).data = false ∧
    download_image
        (GetResult.ok ⟨200, "OK", "http://example.com/a",
          some "text/html; charset=utf-8", [[60]]⟩)
        "http://example.com/a" 0 "aaaaaa" none none
      = (FetchStatus.notAnImage
          (contentTypeOf ⟨200, "OK", "http://example.com/a",
            some "text/html; charset=utf-8", [[60]]⟩), []) :=
  ⟨⟨by decide, by decide⟩, by decide,
    C5_not_an_image _ _ _ _ _ _ (by decide) (by decide) (by decide)⟩

/-- C6: a successful download writes exactly one file whose bytes are the
concatenation of all body chunks in arrival order (empty chunks are
skipped by the writer but contribute nothing). -/
theorem C6_streamed_bytes (url : String) (timestamp : Nat) (short_id : String)
    (resp : HttpResponse) (h2a : 200 ≤ resp.status) (h2b : resp.status < 300)
    (him : leadsWith "image".data (contentTypeOf resp).data = true) :
    download_image (GetResult.ok resp) url timestamp short_id none none
      = (FetchStatus.success
           ("Fetched_Images/" ++ get_filename_from_url url resp timestamp short_id),
         [("Fetched_Images/" ++ get_filename_from_url url resp timestamp short_id,
           resp.chunks.flatten)]) := by
  simp [download_image, raise_for_status_2xx h2a h2b, him, writeChunks_eq_flatten]

/-- Witness for C6 at a three-chunk body with an interleaved empty chunk. -/
theorem C6_streamed_bytes_witness :
    (200 ≤ 200 ∧ 200 < 300) ∧
    leadsWith "image".data
      (contentTypeOf ⟨200, "OK", "http://example.com/img.png",
        some "image/png", [[1, 2], [], [3]]⟩).data = true ∧
    download_image
        (GetResult.ok ⟨200, "OK", "http://example.com/img.png",
          some "image/png", [[1, 2], [], [3]]⟩)
        "http://example.com/img.png" 0 "aaaaaa" none none
      = (FetchStatus.success
           ("Fetched_Images/" ++ get_filename_from_url "http://example.com/img.png"
              ⟨200, "OK", "http://example.com/img.png",
                some "image/png", [[1, 2], [], [3]]⟩ 0 "aaaaaa"),
         [("Fetched_Images/" ++ get_filename_from_url "http://example.com/img.png"
              ⟨200, "OK", "http://example.com/img.png",
                some "image/png", [[1, 2], [], [3]]⟩ 0 "aaaaaa",
           ([[1, 2], [], [3]] : List (List Nat)).flatten)]) :=
  ⟨⟨by decide, by decide⟩, by decide,
    C6_streamed_bytes _ _ _ _ (by decide) (by decide) (by decide)⟩

/-- C7 counterexample: when directory creation fails, the `OSError` from
`ensure_fetch_dir` escapes `main` uncaught — the run crashes instead of
producing a WriteError result, for every conceivable normal outcome. -/
theorem C7_counterexample :
    main (some "[Errno 13] Permission denied: 'Fetched_Images'")
        "http://example.com/a.png"
        (GetResult.ok ⟨200, "OK", "http://example.com/a.png", some "image/png", [[1]]⟩)
        0 "aaaaaa" none none
      = MainResult.crashed "[Errno 13] Permission denied: 'Fetched_Images'" ∧
    ∀ printed download,
      main (some "[Errno 13] Permission denied: 'Fetched_Images'")
          "http://example.com/a.png"
          (GetResult.ok ⟨200, "OK", "http://example.com/a.png", some "image/png", [[1]]⟩)
          0 "aaaaaa" none none
        ≠ MainResult.normal printed download :=
  ⟨rfl, fun _ _ h => MainResult.noConfusion h⟩

/-- C7 amended: a directory-creation failure propagates out of `main`
unhandled (no WriteError is produced). WriteError, carrying the OS error
text, arises when opening the destination file fails (then no file is
created) or when an `OSError` interrupts the chunk-writing loop (then the
file created by the open remains on disk with the bytes of the written
prefix — no cleanup is attempted). -/
theorem C7_amended (e : String) :
    (∀ input net timestamp short_id openError? writeError?,
      main (some e) input net timestamp short_id openError? writeError?
        = MainResult.crashed e) ∧
    (∀ url timestamp short_id (resp : HttpResponse) writeError?,
      200 ≤ resp.status → resp.status < 300 →
      leadsWith "image".data (contentTypeOf resp).data = true →
      download_image (GetResult.ok resp) url timestamp short_id (some e) writeError?
        = (FetchStatus.writeError e, [])) ∧
    (∀ url timestamp short_id (resp : HttpResponse) (k : Nat),
      200 ≤ resp.status → resp.status < 300 →
      leadsWith "image".data (contentTypeOf resp).data = true →
      download_image (GetResult.ok resp) url timestamp short_id none (some (k, e))
        = (FetchStatus.writeError e,
           [("Fetched_Images/" ++ get_filename_from_url url resp timestamp short_id,
             writeChunks (resp.chunks.take k))])) := by
  refine ⟨fun _ _ _ _ _ _ => rfl,
    fun url ts sid resp we h2a h2b him => ?_,
    fun url ts sid resp k h2a h2b him => ?_⟩
  · simp [download_image, raise_for_status_2xx h2a h2b, him]
  · simp [download_image, raise_for_status_2xx h2a h2b, him]

/-- Witness for C7 amended: the mkdir crash, an open failure (no file),
and a write failure after one of two chunks (partial file left). -/
theorem C7_amended_witness :
    main (some "[Errno 13] Permission denied: 'Fetched_Images'") "x"
        (GetResult.exn "unused") 0 "aaaaaa" none none
      = MainResult.crashed "[Errno 13] Permission denied: 'Fetched_Images'" ∧
    download_image
        (GetResult.ok ⟨200, "OK", "http://example.com/a.png", some "image/png", [[1]]⟩)
        "http://example.com/a.png" 0 "aaaaaa"
        (some "[Errno 2] No such file or directory") none
      = (FetchStatus.writeError "[Errno 2] No such file or directory", []) ∧
    download_image
        (GetResult.ok ⟨200, "OK", "http://example.com/a.png", some "image/png",
          [[1, 2], [3, 4]]⟩)
        "http://example.com/a.png" 0 "aaaaaa" none
        (some (1, "[Errno 28] No space left on device"))
      = (FetchStatus.writeError "[Errno 28] No space left on device",
         [("Fetched_Images/a.png",
           writeChunks ([[1, 2], [3, 4]].take 1))]) :=
  ⟨(C7_amended "[Errno 13] Permission denied: 'Fetched_Images'").1 "x"
      (GetResult.exn "unused") 0 "aaaaaa" none none,
   (C7_amended "[Errno 2] No such file or directory").2.1
      "http://example.com/a.png" 0 "aaaaaa" _ none (by decide) (by decide) (by decide),
   by
    have h := (C7_amended "[Errno 28] No space left on device").2.2
      "http://example.com/a.png" 0 "aaaaaa"
      ⟨200, "OK", "http://example.com/a.png", some "image/png", [[1, 2], [3, 4]]⟩
      1 (by decide) (by decide) (by decide)
    rw [h]
    decide⟩

/-- C8 counterexample: generated filenames are not distinct for every pair
of invocations — two invocations in the same epoch second whose 6-char
suffixes collide produce the same name, so the universal claim fails. -/
theorem C8_counterexample :
    ¬ (∀ (ts1 ts2 : Nat) (sid1 sid2 : String),
        sid1.data.length = 6 → sid1.data.all isLowerHexChar = true →
        sid2.data.length = 6 → sid2.data.all isLowerHexChar = true →
        get_filename_from_url "http://example.com/"
            ⟨200, "OK", "http://example.com/", some "image/png", [[1]]⟩ ts1 sid1
          ≠ get_filename_from_url "http://example.com/"
            ⟨200, "OK", "http://example.com/", some "image/png", [[1]]⟩ ts2 sid2) :=
  fun h => h 1700000000 1700000000 "a1b2c3" "a1b2c3"
    (by decide) (by decide) (by decide) (by decide) rfl

/-- C8 amended: two invocations saving for the same no-extension URL and
response produce distinct filenames whenever their (timestamp, 6-char
suffix) pairs differ; they collide exactly when both coincide. -/
theorem C8_amended (url : String) (response : HttpResponse) (ts1 ts2 : Nat)
    (sid1 sid2 : String)
    (hno : ¬ ((pathName url).data ≠ [] ∧ (pathName url).data.elem '.' = true))
    (h1 : sid1.data.length = 6) (h2 : sid2.data.length = 6)
    (hdiff : ts1 ≠ ts2 ∨ sid1 ≠ sid2) :
    get_filename_from_url url response ts1 sid1
      ≠ get_filename_from_url url response ts2 sid2 := by
  intro heq
  rw [get_filename_gen url response ts1 sid1 hno,
    get_filename_gen url response ts2 sid2 hno] at heq
  have hdata := congrArg String.data heq
  have hu : ("_" : String).data = ['_'] := rfl
  simp only [String.data_append, hu, List.append_assoc, List.cons_append,
    List.nil_append, List.cons.injEq, true_and] at hdata
  have hdata2 := hdata
  have hlen : ('_' :: (sid1.data ++ (claimedExtension response.contentType?).data)).length
      = ('_' :: (sid2.data ++ (claimedExtension response.contentType?).data)).length := by
    simp [h1, h2]
  obtain ⟨hts, htl⟩ := List.append_inj' hdata2 hlen
  have hts' : ts1 = ts2 := by
    apply nat_repr_inj
    exact String.ext hts
  have hsid : sid1 = sid2 := by
    apply String.ext
    have := List.cons_injective htl
    exact List.append_cancel_right this
  rcases hdiff with hd | hd
  · exact hd hts'
  · exact hd hsid

/-- Witness for C8 amended: same second, different suffixes. -/
theorem C8_amended_witness :
    ¬ ((pathName "http://example.com/").data ≠ [] ∧
        (pathName "http://example.com/").data.elem '.' = true) ∧
    get_filename_from_url "http://example.com/"
        ⟨200, "OK", "http://example.com/", some "image/png", [[1]]⟩ 1700000000 "a1b2c3"
      ≠ get_filename_from_url "http://example.com/"
        ⟨200, "OK", "http://example.com/", some "image/png", [[1]]⟩ 1700000000 "d4e5f6" :=
  ⟨by decide,
    C8_amended _ _ _ _ _ _ (by decide) (by decide) (by decide)
      (Or.inr (by decide))⟩

/-- C9 counterexample: the entered URL `//[a` has an empty scheme (so the
claim's premise holds), yet `urlparse` on line 106 raises
`ValueError("Invalid IPv6 URL")` outside any `try` block — the run crashes
with a traceback and a nonzero exit instead of printing the explanatory
message and exiting 0. -/
theorem C9_counterexample :
    ¬ (urlparse_scheme (pyStrip "//[a") = "http" ∨
       urlparse_scheme (pyStrip "//[a") = "https") ∧
    pyStrip "//[a" ≠ "" ∧
    main none "//[a" (GetResult.exn "unused") 0 "aaaaaa" none none
      = MainResult.crashed "Invalid IPv6 URL" ∧
    ∀ printed download,
      main none "//[a" (GetResult.exn "unused") 0 "aaaaaa" none none
        ≠ MainResult.normal printed download :=
  ⟨by decide, by decide, by decide,
   fun _ _ h => by rw [show main none "//[a" (GetResult.exn "unused") 0 "aaaaaa" none none
      = MainResult.crashed "Invalid IPv6 URL" by decide] at h; exact MainResult.noConfusion h⟩

/-- C9 amended: an empty entered URL exits 0 with its message; a URL whose
scheme is neither http nor https does so too provided `urlsplit` raises no
ValueError on it (for an all-ASCII netloc the modelled checks coincide
with CPython's); when `urlsplit` raises — unbalanced bracket or rejected
bracketed host — the exception escapes `main` at line 106 and the run
crashes instead. -/
theorem C9_amended (input : String) (net : GetResult) (timestamp : Nat)
    (short_id : String) (openError? : Option String)
    (writeError? : Option (Nat × String)) :
    (pyStrip input = "" →
      main none input net timestamp short_id openError? writeError?
        = MainResult.normal ["No URL entered. Exiting."] none) ∧
    (pyStrip input ≠ "" →
      (urlparseNetloc (pyStrip input)).all (fun c => decide (c.toNat < 128)) = true →
      urlparseError? (pyStrip input) = none →
      ¬ (urlparse_scheme (pyStrip input) = "http" ∨
         urlparse_scheme (pyStrip input) = "https") →
      main none input net timestamp short_id openError? writeError?
        = MainResult.normal ["Please enter a valid HTTP or HTTPS URL."] none) ∧
    (∀ e, pyStrip input ≠ "" → urlparseError? (pyStrip input) = some e →
      main none input net timestamp short_id openError? writeError?
        = MainResult.crashed e) := by
  refine ⟨fun he => by simp [main, he], fun hne _ hok hsch => ?_, fun e hne herr => ?_⟩
  · simp [main, hne, hok, hsch]
  · simp [main, hne, herr]

/-- Witness for C9 amended: an `ftp` URL prints the scheme message, blank
input prints the empty message, and the bracket-mismatched `//[a` crashes
with the ValueError text. -/
theorem C9_amended_witness :
    main none "ftp://example.com/a.png" (GetResult.exn "unused") 0 "aaaaaa" none none
      = MainResult.normal ["Please enter a valid HTTP or HTTPS URL."] none ∧
    main none "   " (GetResult.exn "unused") 0 "aaaaaa" none none
      = MainResult.normal ["No URL entered. Exiting."] none ∧
    main none "//[a" (GetResult.exn "unused") 0 "aaaaaa" none none
      = MainResult.crashed "Invalid IPv6 URL" :=
  ⟨(C9_amended "ftp://example.com/a.png" (GetResult.exn "unused") 0 "aaaaaa" none none).2.1
      (by decide) (by decide) (by decide) (by decide),
   (C9_amended "   " (GetResult.exn "unused") 0 "aaaaaa" none none).1 (by decide),
   (C9_amended "//[a" (GetResult.exn "unused") 0 "aaaaaa" none none).2.2
      "Invalid IPv6 URL" (by decide) (by decide)⟩

/-- C10: a 2xx response with a missing or empty Content-Type header is
treated as not an image — the header defaults to the empty string, which
does not start with `image` — and no file is written. -/
theorem C10_missing_content_type (url : String) (timestamp : Nat)
    (short_id : String) (openError? : Option String)
    (writeError? : Option (Nat × String)) (resp : HttpResponse)
    (h2a : 200 ≤ resp.status) (h2b : resp.status < 300)
    (hct : resp.contentType? = none ∨ resp.contentType? = some "") :
    download_image (GetResult.ok resp) url timestamp short_id openError? writeError?
      = (FetchStatus.notAnImage "", []) := by
  have hc : contentTypeOf resp = "" := by
    rcases hct with h | h <;> simp [contentTypeOf, h] <;> rfl
  have hni : leadsWith "image".data (contentTypeOf resp).data = false := by
    rw [hc]; decide
  simp [download_image, raise_for_status_2xx h2a h2b, hni, hc]
  intro h
  exact absurd h (by decide)

/-- Witness for C10 at a headerless 2xx response. -/
theorem C10_missing_content_type_witness :
    (200 ≤ 200 ∧ 200 < 300) ∧
    download_image (GetResult.ok ⟨200, "OK", "http://example.com/a", none, [[1]]⟩)
        "http://example.com/a" 0 "aaaaaa" none none
      = (FetchStatus.notAnImage "", []) :=
  ⟨⟨by decide, by decide⟩,
    C10_missing_content_type _ _ _ _ _ _ (by decide) (by decide) (Or.inl rfl)⟩

end FetchImage
